import Mathlib

/-!
Shallow embedding of the authentication and session-security subsystem of the
Ultimate_Blog repository (Express + Supabase). Times are integer milliseconds,
monetary amounts are rationals, coordinates are reals. The Supabase
`.single()` call yields a row exactly when the filter matched one row
(PostgREST code PGRST116 is returned, and swallowed by the callers modelled
here, both for zero and for several matching rows); `singleRow` models that.
External collaborators (bcrypt, sha256, geoip, jwt) are supplied as function
parameters in `Env`.
-/

namespace UltimateBlog

/-- Latitude/longitude pair, the `ll` field of a geoip lookup result. -/
structure Location where
  lat : ℝ
  lon : ℝ

/-- Runtime errors thrown by the modelled JavaScript and caught by the
controller catch-blocks. -/
inductive JsErr where
  | typeError
deriving DecidableEq

/-- Row of the `users` table. `reset_token` and `reset_password_token` are
distinct columns: `findByResetToken` queries the former while
`forgotPassword`/`resetPassword` write the latter. -/
structure UserRec where
  id : String
  name : String
  email : String
  phone : String
  password : String
  role : String
  verified : Bool
  wallet_balance : ℚ
  agent_code : Option String
  verification_code : Option String
  verification_code_expires : Option ℤ
  reset_token : Option String
  reset_password_token : Option String
  reset_password_expire : Option ℤ
  refresh_token : Option String
  email_verified_at : Option ℤ
  deleted_at : Option ℤ
deriving DecidableEq

/-- Row of the `user_sessions` table. `is_active` defaults to true on insert. -/
structure Session where
  id : String
  user_id : String
  session_token : String
  device_fingerprint : String
  user_agent : String
  ip_address : String
  loc : Option Location
  expires_at : ℤ
  last_activity : ℤ
  is_active : Bool

/-- Row of the `user_devices` table, keyed by (user, fingerprint). -/
structure Device where
  user_id : String
  device_fingerprint : String
  last_used_at : ℤ
deriving DecidableEq

/-- Row of the `user_activities` table; the timestamp is the database default
creation time. -/
structure Activity where
  user_id : Option String
  session_id : Option String
  activity_type : String
  ip_address : String
  device_fingerprint : String
  status : String
  timestamp : ℤ
deriving DecidableEq

/-- Row of the `blocked_ips` table. -/
structure BlockedIp where
  ip : String
  reason : String
deriving DecidableEq

/-- The durable state of the record store. -/
structure World where
  users : List UserRec
  sessions : List Session
  devices : List Device
  activities : List Activity
  blockedIps : List BlockedIp

/-- The request metadata the controllers read. -/
structure Req where
  ip : String
  userAgent : String
  acceptLanguage : String
deriving DecidableEq

/-- External collaborators: sha256 digest, bcrypt hash and compare, geoip
lookup (returns none for an unknown address), jwt signing. -/
structure Env where
  sha256 : String → String
  bhash : String → String
  bcompare : String → String → Bool
  geo : String → Option Location
  jwtSign : String → String

/-- Payload of a successful login response. -/
structure LoginData where
  userId : String
  name : String
  email : String
  verified : Bool
  token : String
  refresh_token : String
  session_id : String
  requires_verification : Bool
deriving DecidableEq

/-- Uniform response envelope produced by ResponseHandler. -/
structure Response where
  code : ℕ
  status : String
  message : String
  data : Option LoginData
deriving DecidableEq

namespace ResponseHandler

def success (data : Option LoginData) (message : String) : Response :=
  ⟨200, "success", message, data⟩

def created (data : Option LoginData) (message : String) : Response :=
  ⟨201, "success", message, data⟩

def error (message : String) : Response :=
  ⟨500, "error", message, none⟩

def badRequest (message : String) : Response :=
  ⟨400, "error", message, none⟩

def unauthorized (message : String) : Response :=
  ⟨401, "error", message, none⟩

def forbidden (message : String) : Response :=
  ⟨403, "error", message, none⟩

def notFound (message : String) : Response :=
  ⟨404, "error", message, none⟩

end ResponseHandler

instance {ε α : Type} [DecidableEq ε] [DecidableEq α] : DecidableEq (Except ε α) := fun a b =>
  match a, b with
  | Except.error e, Except.error f => decidable_of_iff (e = f) (by simp)
  | Except.error _, Except.ok _ => isFalse (by simp)
  | Except.ok _, Except.error _ => isFalse (by simp)
  | Except.ok x, Except.ok y => decidable_of_iff (x = y) (by simp)

/-- Result of a Supabase `.single()` query: a row exactly when the filter
matched exactly one row. -/
def singleRow {α : Type} (rows : List α) : Option α :=
  match rows with
  | [a] => some a
  | _ => none

/-- Argument object of `User.update`: a field is `some _` when the key is
present in the JavaScript update object; for nullable columns the inner
Option distinguishes writing a value from writing null. -/
structure UpdateData where
  name : Option String
  phone : Option String
  password : Option String
  role : Option String
  wallet_balance : Option ℚ
  verified : Option Bool
  verification_code : Option (Option String)
  verification_code_expires : Option (Option ℤ)
  email_verified_at : Option (Option ℤ)
  reset_password_token : Option (Option String)
  reset_password_expire : Option (Option ℤ)
  refresh_token : Option (Option String)
deriving DecidableEq

/-- The empty update object. -/
def UpdateData.empty : UpdateData :=
  ⟨none, none, none, none, none, none, none, none, none, none, none, none⟩

/-- Application of the `safeData` write of `User.update` to one row:
`password`, `role` and `wallet_balance` are destructured out of the update
object, and the password is re-added bcrypt-hashed when present and truthy
(a nonempty string). `role` and `wallet_balance` are therefore never
written. -/
def applyUpdate (bhash : String → String) (d : UpdateData) (u : UserRec) : UserRec :=
  { u with
    name := d.name.getD u.name
    phone := d.phone.getD u.phone
    verified := d.verified.getD u.verified
    verification_code := d.verification_code.getD u.verification_code
    verification_code_expires := d.verification_code_expires.getD u.verification_code_expires
    email_verified_at := d.email_verified_at.getD u.email_verified_at
    reset_password_token := d.reset_password_token.getD u.reset_password_token
    reset_password_expire := d.reset_password_expire.getD u.reset_password_expire
    refresh_token := d.refresh_token.getD u.refresh_token
    password :=
      match d.password with
      | some p => if p == "" then u.password else bhash p
      | none => u.password }

namespace UserModel

/-- Embedding of `findByEmail`: select where email matches and the row is not
soft-deleted, `.single()`. -/
def findByEmail (email : String) (users : List UserRec) : Option UserRec :=
  singleRow (users.filter (fun u => u.email == email && u.deleted_at == none))

/-- Embedding of `findByResetToken`: the query filters on the `reset_token`
column (not `reset_password_token`) and performs no expiry comparison. -/
def findByResetToken (tokenHash : String) (users : List UserRec) : Option UserRec :=
  singleRow (users.filter (fun u => u.reset_token == some tokenHash && u.deleted_at == none))

/-- Embedding of `findByRefreshToken`. -/
def findByRefreshToken (token : String) (users : List UserRec) : Option UserRec :=
  singleRow (users.filter (fun u => u.refresh_token == some token && u.deleted_at == none))

/-- Embedding of `User.update` (first snapshot, the one `authController`
uses): existence pre-check on id alone, then the `safeData` write applied to
the id-matching row, with no soft-delete filter. -/
def update (bhash : String → String) (id : String) (d : UpdateData)
    (users : List UserRec) : Except String (List UserRec) :=
  match users.filter (fun u => u.id == id) with
  | [] => Except.error "User not found in the database"
  | [_] => Except.ok (users.map (fun u => if u.id == id then applyUpdate bhash d u else u))
  | _ => Except.error "Multiple users found with the same ID"

/-- Embedding of `User.update` (second snapshot): one `.update()` filtered on
id and not soft-deleted, `.single()` on the written rows. -/
def update_v2 (bhash : String → String) (id : String) (d : UpdateData)
    (users : List UserRec) : Except String (List UserRec) :=
  match users.filter (fun u => u.id == id && u.deleted_at == none) with
  | [_] =>
    Except.ok (users.map (fun u =>
      if u.id == id && u.deleted_at == none then applyUpdate bhash d u else u))
  | _ => Except.error "Error updating user"

/-- A JavaScript number is never loosely equal (`==`) to null, so the guard
`newBalance < 0 && newBalance == null` of the first `updateWallet` snapshot
can never fire. -/
def jsNumEqNull (_x : ℚ) : Bool := false

/-- Write of the new wallet balance: `.eq("id", id)` with no soft-delete
filter. -/
def writeWallet (id : String) (b : ℚ) (users : List UserRec) : List UserRec :=
  users.map (fun u => if u.id == id then { u with wallet_balance := b } else u)

/-- Embedding of `updateWallet` (first snapshot): the insufficient-balance
guard is `newBalance < 0 && newBalance == null`. -/
def updateWallet (id : String) (amount : ℚ) (ty : String)
    (users : List UserRec) : Except String (List UserRec) :=
  match singleRow (users.filter (fun u => u.id == id && u.deleted_at == none)) with
  | none => Except.error "User not found"
  | some u =>
    if ty == "add" then
      Except.ok (writeWallet id (u.wallet_balance + amount) users)
    else if ty == "subtract" then
      let newBalance := u.wallet_balance - amount
      if decide (newBalance < 0) && jsNumEqNull newBalance then
        Except.error "Insufficient wallet balance, + "
      else
        Except.ok (writeWallet id newBalance users)
    else
      Except.error "Invalid transaction type"

/-- Embedding of `updateWallet` (second snapshot): the guard is
`newBalance < 0`. -/
def updateWallet_v2 (id : String) (amount : ℚ) (ty : String)
    (users : List UserRec) : Except String (List UserRec) :=
  match singleRow (users.filter (fun u => u.id == id && u.deleted_at == none)) with
  | none => Except.error "User not found"
  | some u =>
    if ty == "add" then
      Except.ok (writeWallet id (u.wallet_balance + amount) users)
    else if ty == "subtract" then
      let newBalance := u.wallet_balance - amount
      if decide (newBalance < 0) then
        Except.error "Insufficient wallet balance"
      else
        Except.ok (writeWallet id newBalance users)
    else
      Except.error "Invalid transaction type"

end UserModel

/-- The agent code built from one draw of `Math.floor(10000 + random * 90000)`;
the prefix is "UB" in the first snapshot and "AG" in the second. -/
def agentCode (pfx : String) (n : ℕ) : String := pfx ++ toString n

/-- Embedding of `generateAgentCode`: draw a code, look it up with
`.single()`, and re-invoke on a hit. The JavaScript recursion has no bound;
the fuel argument only lets the model observe each finite prefix of the
execution, with `none` meaning the execution has not returned within that
many calls. -/
def generateAgentCodeAux (pfx : String) (users : List UserRec) (draws : ℕ → ℕ) :
    ℕ → ℕ → Option String
  | _, 0 => none
  | k, fuel + 1 =>
    match singleRow (users.filter (fun u => u.agent_code == some (agentCode pfx (draws k)))) with
    | some _ => generateAgentCodeAux pfx users draws (k + 1) fuel
    | none => some (agentCode pfx (draws k))

/-- Entry point of the agent-code generation, starting at the first draw. -/
def generateAgentCode (pfx : String) (users : List UserRec) (draws : ℕ → ℕ)
    (fuel : ℕ) : Option String :=
  generateAgentCodeAux pfx users draws 0 fuel

/-- Embedding of `SecurityUtils.generateDeviceFingerprint`: sha256 of the
order-sensitive concatenation of user-agent, accept-language and address. -/
def deviceFingerprint (env : Env) (req : Req) : String :=
  env.sha256 (req.userAgent ++ "|" ++ req.acceptLanguage ++ "|" ++ req.ip)

/-- Embedding of `SessionManager.invalidateSession`: flip `is_active` off for
the id-matching rows. -/
def invalidateSession (sessionId : String) (sessions : List Session) : List Session :=
  sessions.map (fun s => if s.id == sessionId then { s with is_active := false } else s)

/-- Embedding of `SessionManager.validateSession`: select by token where
`is_active = true` with `.single()`; absent means invalid (false); an
expired hit is invalidated as a side effect and reported invalid. Returns
the session on success together with the possibly-updated session store. -/
def validateSession (sessionToken : String) (now : ℤ) (sessions : List Session) :
    Option Session × List Session :=
  match singleRow (sessions.filter (fun s => s.session_token == sessionToken && s.is_active)) with
  | none => (none, sessions)
  | some s =>
    if s.expires_at < now then (none, invalidateSession s.id sessions)
    else (some s, sessions)

/-- Modelled from the spec: `invalidateAllUserSessions` is called by the
password-reset controller but is defined nowhere under the sources; the spec
says `invalidateAllSessionsForUser(id)` flips `active=false` idempotently for
every session of the user. -/
def invalidateAllUserSessions (userId : String) (sessions : List Session) : List Session :=
  sessions.map (fun s => if s.user_id == userId then { s with is_active := false } else s)

/-- Embedding of `SessionManager.updateDeviceRecord`: touch the matching
device row, else insert one. -/
def updateDeviceRecord (userId fp : String) (now : ℤ) (devices : List Device) : List Device :=
  match singleRow (devices.filter (fun d => d.user_id == userId && d.device_fingerprint == fp)) with
  | some _ =>
    devices.map (fun d =>
      if d.user_id == userId && d.device_fingerprint == fp then { d with last_used_at := now }
      else d)
  | none => devices ++ [⟨userId, fp, now⟩]

/-- Embedding of `SessionManager.logActivity`: append one activity row. -/
def logActivity (userId sessionId : Option String) (activityType : String)
    (env : Env) (req : Req) (status : String) (now : ℤ) (w : World) : World :=
  { w with activities :=
      w.activities ++ [⟨userId, sessionId, activityType, req.ip, deviceFingerprint env req, status, now⟩] }

/-- Embedding of `SessionManager.createSession`: fingerprint, geo lookup
(spread of a null lookup result adds nothing), device upsert, session insert
with `expires_at = now + 24h`, and a LOGIN activity row. -/
def createSession (env : Env) (u : UserRec) (req : Req) (now : ℤ)
    (newId newToken : String) (w : World) : Session × World :=
  let fp := deviceFingerprint env req
  let locationInfo := env.geo req.ip
  let devices2 := updateDeviceRecord u.id fp now w.devices
  let s : Session := ⟨newId, u.id, newToken, fp, req.userAgent, req.ip, locationInfo,
    now + 86400000, now, true⟩
  let w2 := { w with devices := devices2, sessions := w.sessions ++ [s] }
  (s, logActivity (some u.id) (some newId) "LOGIN" env req "SUCCESS" now w2)

/-- Embedding of `SecurityUtils.isIpBlocked`: `.single()` over `blocked_ips`
filtered on the address, coerced to a boolean. -/
def isIpBlocked (ip : String) (blocked : List BlockedIp) : Bool :=
  (singleRow (blocked.filter (fun b => b.ip == ip))).isSome

/-- Embedding of `SecurityUtils.toRad`. -/
noncomputable def toRad (v : ℝ) : ℝ := v * Real.pi / 180

/-- Embedding of `Math.atan2` on the reals. -/
noncomputable def atan2 (y x : ℝ) : ℝ :=
  if 0 < x then Real.arctan (y / x)
  else if x < 0 ∧ 0 ≤ y then Real.arctan (y / x) + Real.pi
  else if x < 0 ∧ y < 0 then Real.arctan (y / x) - Real.pi
  else if x = 0 ∧ 0 < y then Real.pi / 2
  else if x = 0 ∧ y < 0 then -(Real.pi / 2)
  else 0

/-- Embedding of `SecurityUtils.calculateDistance`: haversine distance in km
with Earth radius 6371. -/
noncomputable def calculateDistance (lat1 lon1 lat2 lon2 : ℝ) : ℝ :=
  let dLat := toRad (lat2 - lat1)
  let dLon := toRad (lon2 - lon1)
  let a := Real.sin (dLat / 2) * Real.sin (dLat / 2) +
    Real.cos (toRad lat1) * Real.cos (toRad lat2) *
    Real.sin (dLon / 2) * Real.sin (dLon / 2)
  let c := 2 * atan2 (Real.sqrt a) (Real.sqrt (1 - a))
  6371 * c

/-- Embedding of `SecurityUtils.isSuspiciousLocation`: false on an empty
previous-location set; otherwise `const [newLat, newLon] = newLocation.ll`
throws a TypeError when the geo lookup returned null, and else the result is
true iff no previous location is within 1000 km. -/
noncomputable def isSuspiciousLocation (newLocation : Option Location)
    (previousLocations : List Location) : Except JsErr Bool :=
  if previousLocations.isEmpty then Except.ok false
  else
    match newLocation with
    | none => Except.error JsErr.typeError
    | some nl =>
      Except.ok (! previousLocations.any (fun loc =>
        if calculateDistance nl.lat nl.lon loc.lat loc.lon < 1000 then true else false))

/-- Modelled from the spec: `getKnownDevices` is called by the controller but
defined nowhere under the sources; the spec says the known-devices set is the
set of Device rows of the user. -/
def getKnownDevices (userId : String) (devices : List Device) : List Device :=
  devices.filter (fun d => d.user_id == userId)

/-- Modelled from the spec: the previous-locations argument of the anomaly
check is resolved nowhere under the sources; the spec says it is the set of
previously recorded locations for the user, which session rows record. -/
def previousLocationsOf (userId : String) (sessions : List Session) : List Location :=
  sessions.filterMap (fun s => if s.user_id == userId then s.loc else none)

/-- Modelled from the spec: `getRecentFailedAttempts` is called by the
controller but defined nowhere under the sources; the spec says
BruteForceGuard counts FAILED login attempts for the address within a
trailing window. -/
def getRecentFailedAttempts (ip : String) (window now : ℤ) (activities : List Activity) : ℕ :=
  (activities.filter (fun a =>
    a.activity_type == "LOGIN_FAILED" && a.status == "FAILED" && a.ip_address == ip &&
    decide (now - window ≤ a.timestamp) && decide (a.timestamp ≤ now))).length

/-- Modelled from the spec: `blockIp` is called by the controller but defined
nowhere under the sources; the spec says BruteForceGuard inserts a
BlockedAddress row. -/
def blockIp (ip reason : String) (w : World) : World :=
  { w with blockedIps := w.blockedIps ++ [⟨ip, reason⟩] }

/-- Embedding of `AuthController.handleFailedLogin`: log a LOGIN_FAILED
activity, then block the address when the recent failed count (including the
row just logged) reaches 5. -/
def handleFailedLogin (env : Env) (req : Req) (userId : Option String)
    (window now : ℤ) (w : World) : World :=
  let w1 := logActivity userId none "LOGIN_FAILED" env req "FAILED" now w
  if 5 ≤ getRecentFailedAttempts req.ip window now w1.activities then
    blockIp req.ip "Too many failed login attempts" w1
  else w1

/-- Embedding of `AuthController.checkSuspiciousActivity`: unknown device or
suspicious location; a TypeError thrown by the location predicate
propagates. -/
noncomputable def checkSuspiciousActivity (env : Env) (userId : String) (req : Req)
    (devices : List Device) (sessions : List Session) : Except JsErr Bool :=
  let fp := deviceFingerprint env req
  let locationInfo := env.geo req.ip
  let isKnownDevice := (getKnownDevices userId devices).any
    (fun d => d.device_fingerprint == fp)
  match isSuspiciousLocation locationInfo (previousLocationsOf userId sessions) with
  | Except.error e => Except.error e
  | Except.ok suspLoc => Except.ok (!isKnownDevice || suspLoc)

/-- Embedding of `User.create` for the registration flow (role undefined, so
"user", no agent code): password bcrypt-hashed, wallet 0, unverified, with
the verification code and its 30-minute expiry. -/
def createUser (bhash : String → String) (newId nm email phone pw code : String)
    (codeExpires : ℤ) : UserRec :=
  ⟨newId, nm, email, phone, bhash pw, "user", false, 0, none,
    some code, some codeExpires, none, none, none, none, none, none⟩

/-- Embedding of `AuthController.login`. The catch-block of the controller
turns a thrown TypeError or store error into a 500 response after logging a
LOGIN_FAILED activity; the success payload carries the tokens and the
suspicious flag. -/
noncomputable def login (env : Env) (req : Req) (email pw : String)
    (newSessionId newSessionToken newRefreshToken : String)
    (window now : ℤ) (w : World) : Response × World :=
  if isIpBlocked req.ip w.blockedIps then
    (ResponseHandler.forbidden "Access denied from this IP address", w)
  else
    match UserModel.findByEmail email w.users with
    | none =>
      (ResponseHandler.unauthorized "Invalid credentials",
        handleFailedLogin env req none window now w)
    | some user =>
      if ! env.bcompare pw user.password then
        (ResponseHandler.unauthorized "Invalid credentials",
          handleFailedLogin env req (some user.id) window now w)
      else if ! user.verified then
        (ResponseHandler.forbidden "Please verify your email before logging in", w)
      else
        let sw := createSession env user req now newSessionId newSessionToken w
        match checkSuspiciousActivity env user.id req sw.2.devices sw.2.sessions with
        | Except.error _ =>
          (ResponseHandler.error "Cannot destructure property of null",
            logActivity none none "LOGIN_FAILED" env req "FAILED" now sw.2)
        | Except.ok isSuspicious =>
          match UserModel.update env.bhash user.id
              { UpdateData.empty with refresh_token := some (some newRefreshToken) }
              sw.2.users with
          | Except.error msg =>
            (ResponseHandler.error msg,
              logActivity none none "LOGIN_FAILED" env req "FAILED" now sw.2)
          | Except.ok users2 =>
            let w3 := logActivity (some user.id) (some sw.1.id) "LOGIN" env req "SUCCESS" now
              { sw.2 with users := users2 }
            (ResponseHandler.success
              (some ⟨user.id, user.name, user.email, user.verified,
                env.jwtSign user.id, newRefreshToken, sw.1.id, isSuspicious⟩) "Success", w3)

/-- Embedding of `AuthController.register`: the password-confirmation
validation runs before the blocked-address gate; the created-response data
payload is elided (no claim inspects it). -/
def register (env : Env) (req : Req) (nm email phone pw pwConf code : String)
    (newUserId newSessionId newSessionToken newRefreshToken : String)
    (now : ℤ) (w : World) : Response × World :=
  if pw != pwConf then
    (ResponseHandler.badRequest "Passwords do not match", w)
  else if isIpBlocked req.ip w.blockedIps then
    (ResponseHandler.forbidden "Access denied from this IP address", w)
  else
    match UserModel.findByEmail email w.users with
    | some _ => (ResponseHandler.badRequest "Email already registered", w)
    | none =>
      let user := createUser env.bhash newUserId nm email phone pw code (now + 1800000)
      let w1 := { w with users := w.users ++ [user] }
      let sw := createSession env user req now newSessionId newSessionToken w1
      match UserModel.update env.bhash user.id
          { UpdateData.empty with refresh_token := some (some newRefreshToken) }
          sw.2.users with
      | Except.error msg =>
        (ResponseHandler.error msg,
          logActivity none none "REGISTRATION_FAILED" env req "FAILED" now sw.2)
      | Except.ok users2 =>
        let w3 := logActivity (some user.id) (some sw.1.id) "REGISTRATION" env req "SUCCESS" now
          { sw.2 with users := users2 }
        (ResponseHandler.created none "Resource created successfully", w3)

/-- Embedding of `AuthController.forgotPassword`: when no user matches, the
generic success response is returned directly; otherwise the sha256 hash of
the fresh reset token and a 30-minute expiry are stored, and the same
generic success response is returned. -/
def forgotPassword (env : Env) (req : Req) (email resetTokenPlain : String)
    (now : ℤ) (w : World) : Response × World :=
  match UserModel.findByEmail email w.users with
  | none =>
    (ResponseHandler.success none
      "If an account exists, password reset instructions have been sent", w)
  | some user =>
    match UserModel.update env.bhash user.id
        { UpdateData.empty with
            reset_password_token := some (some (env.sha256 resetTokenPlain)),
            reset_password_expire := some (some (now + 1800000)) }
        w.users with
    | Except.error msg => (ResponseHandler.error msg, w)
    | Except.ok users2 =>
      let w2 := logActivity (some user.id) none "PASSWORD_RESET_REQUESTED" env req "SUCCESS" now
        { w with users := users2 }
      (ResponseHandler.success none
        "If an account exists, password reset instructions have been sent", w2)

/-- Embedding of `AuthController.resetPassword`: hash the presented token,
look the user up by the `reset_token` column, fail when absent; otherwise
write the new password and null out `reset_password_token` and
`reset_password_expire`, then invalidate all of the user's sessions. No
expiry comparison is performed anywhere in this flow. -/
def resetPassword (env : Env) (req : Req) (token pw pwConf : String)
    (now : ℤ) (w : World) : Response × World :=
  if pw != pwConf then
    (ResponseHandler.badRequest "Passwords do not match", w)
  else
    match UserModel.findByResetToken (env.sha256 token) w.users with
    | none => (ResponseHandler.badRequest "Invalid or expired reset token", w)
    | some user =>
      match UserModel.update env.bhash user.id
          { UpdateData.empty with
              password := some pw,
              reset_password_token := some none,
              reset_password_expire := some none }
          w.users with
      | Except.error msg => (ResponseHandler.error msg, w)
      | Except.ok users2 =>
        let w2 := { w with
          users := users2
          sessions := invalidateAllUserSessions user.id w.sessions }
        let w3 := logActivity (some user.id) none "PASSWORD_RESET_COMPLETED" env req "SUCCESS" now w2
        (ResponseHandler.success none "Password reset successful", w3)

/-! Concrete sample environments and stores used to evaluate the flows. -/

/-- Sample collaborators: sha256 is constantly "H", bcrypt prepends "B", and
compare accepts exactly the matching hash; the geo lookup knows no address. -/
def envA : Env :=
  ⟨fun _ => "H", fun p => "B" ++ p, fun p h => h == "B" ++ p, fun _ => none, fun _ => "J"⟩

/-- Sample request from an unblocked address. -/
def reqA : Req := ⟨"9.9.9.9", "UA", "en"⟩

/-- Sample request from the blocked address of `c3World`. -/
def reqB : Req := ⟨"1.2.3.4", "UA", "en"⟩

/-- User holding a reset-token hash whose expiry (50) is already in the past
at time 100. -/
def c1User : UserRec :=
  ⟨"u1", "N", "e@x", "ph", "old", "user", true, 0, none, none, none,
    some "H", some "H", some 50, none, none, none⟩

/-- Store containing only `c1User`. -/
def c1World : World := ⟨[c1User], [], [], [], []⟩

/-- Store whose block list contains the address of `reqB`. -/
def c3World : World := ⟨[], [], [], [], [⟨"1.2.3.4", "too many failed login attempts"⟩]⟩

/-- User with a wallet balance of 10. -/
def c4User : UserRec :=
  ⟨"u1", "N", "e@x", "ph", "pw", "user", true, 10, none, none, none,
    none, none, none, none, none, none⟩

/-- User owning the agent code "UB10000". -/
def c9User : UserRec :=
  ⟨"u1", "N", "e@x", "ph", "pw", "user", true, 0, some "UB10000", none, none,
    none, none, none, none, none, none⟩

/-! Helper lemmas. -/

/-- A `.single()` result determines the filtered row list. -/
theorem singleRow_eq_some {α : Type} {l : List α} {a : α} (h : singleRow l = some a) :
    l = [a] := by
  match l with
  | [] => simp [singleRow] at h
  | [x] => simp [singleRow] at h; rw [h]
  | x :: y :: ys => simp [singleRow] at h

/-- When the stored agent codes are duplicate-free, a code matches at most
one row. -/
theorem filter_agent_code_small (users : List UserRec)
    (hnd : (users.filterMap (fun u => u.agent_code)).Nodup) (code : String) :
    users.filter (fun u => u.agent_code == some code) = [] ∨
    ∃ a, users.filter (fun u => u.agent_code == some code) = [a] := by
  induction users with
  | nil => exact Or.inl rfl
  | cons x xs ih =>
    have hnd2 : (xs.filterMap (fun u => u.agent_code)).Nodup := by
      rcases hfx : x.agent_code with _ | c
      · rw [List.filterMap_cons, hfx] at hnd; exact hnd
      · rw [List.filterMap_cons, hfx] at hnd; exact hnd.of_cons
    cases hx : (x.agent_code == some code) with
    | false =>
      simp only [List.filter_cons, hx, Bool.false_eq_true, if_false]
      exact ih hnd2
    | true =>
      simp only [List.filter_cons, hx, if_true]
      refine Or.inr ⟨x, ?_⟩
      have hxc : x.agent_code = some code := by simpa using hx
      have hnil : xs.filter (fun u => u.agent_code == some code) = [] := by
        refine List.filter_eq_nil_iff.mpr ?_
        intro y hy hyc
        have hyc2 : y.agent_code = some code := by simpa using hyc
        rw [List.filterMap_cons, hxc] at hnd
        exact (List.nodup_cons.mp hnd).1 (List.mem_filterMap.mpr ⟨y, hy, hyc2⟩)
      rw [hnil]

/-- If the j-th draw after k is fresh, the agent-code recursion returns
within j + 1 calls a code whose uniqueness lookup found no row. -/
theorem generateAgentCodeAux_finds (pfx : String) (users : List UserRec) (draws : ℕ → ℕ) :
    ∀ (j k : ℕ),
      users.filter (fun u => u.agent_code == some (agentCode pfx (draws (k + j)))) = [] →
      ∃ code, generateAgentCodeAux pfx users draws k (j + 1) = some code ∧
        singleRow (users.filter (fun u => u.agent_code == some code)) = none := by
  intro j
  induction j with
  | zero =>
    intro k hk
    rw [Nat.add_zero] at hk
    refine ⟨agentCode pfx (draws k), ?_, by rw [hk]; rfl⟩
    simp [generateAgentCodeAux, hk, singleRow]
  | succ n ih =>
    intro k hk
    cases hs : singleRow (users.filter
        (fun u => u.agent_code == some (agentCode pfx (draws k)))) with
    | none => exact ⟨agentCode pfx (draws k), by simp [generateAgentCodeAux, hs], hs⟩
    | some _ =>
      have hstep : generateAgentCodeAux pfx users draws k (n + 1 + 1) =
          generateAgentCodeAux pfx users draws (k + 1) (n + 1) := by
        simp [generateAgentCodeAux, hs]
      rw [hstep]
      apply ih (k + 1)
      have harith : k + 1 + n = k + (n + 1) := by omega
      rw [harith]
      exact hk

/-- The `update` write succeeds with the pointwise write when the id matches
exactly one row. -/
theorem update_ok_of_unique (bhash : String → String) (id : String) (d : UpdateData)
    (users : List UserRec) (u : UserRec)
    (hid : users.filter (fun x => x.id == id) = [u]) :
    UserModel.update bhash id d users =
      Except.ok (users.map (fun x => if x.id == id then applyUpdate bhash d x else x)) := by
  unfold UserModel.update
  rw [hid]

/-- A session reported valid is the unique active row for its token. -/
theorem validateSession_some_filter (sessions : List Session) (s : Session)
    (tok : String) (now : ℤ)
    (h : (validateSession tok now sessions).1 = some s) :
    sessions.filter (fun x => x.session_token == tok && x.is_active) = [s] := by
  unfold validateSession at h
  cases hsr : singleRow (sessions.filter (fun x => x.session_token == tok && x.is_active)) with
  | none => rw [hsr] at h; simp at h
  | some t =>
    rw [hsr] at h
    have h2 : (if t.expires_at < now then ((none : Option Session), invalidateSession t.id sessions)
        else (some t, sessions)).1 = some s := h
    by_cases hexp : t.expires_at < now
    · rw [if_pos hexp] at h2; simp at h2
    · rw [if_neg hexp] at h2
      simp at h2
      rw [← h2]
      exact singleRow_eq_some hsr

/-- After all of a user's sessions are invalidated, the token of that user's
previously unique active session matches no active row. -/
theorem filter_invalidateAll_nil (uid tok : String) (sessions : List Session) (s : Session)
    (hf : sessions.filter (fun x => x.session_token == tok && x.is_active) = [s])
    (hsu : s.user_id = uid) :
    (invalidateAllUserSessions uid sessions).filter
      (fun x => x.session_token == tok && x.is_active) = [] := by
  refine List.filter_eq_nil_iff.mpr ?_
  intro x hx hpx
  obtain ⟨y, hy, hxy⟩ := List.mem_map.mp hx
  by_cases hyid : (y.user_id == uid) = true
  · rw [if_pos hyid] at hxy
    rw [← hxy] at hpx
    simp at hpx
  · rw [if_neg (by simp [hyid])] at hxy
    have hyf : y ∈ sessions.filter (fun x => x.session_token == tok && x.is_active) :=
      List.mem_filter.mpr ⟨hy, by rw [hxy]; exact hpx⟩
    rw [hf] at hyf
    have hys : y = s := by simpa using hyf
    rw [hys, hsu] at hyid
    exact hyid (by simp)

/-- When stored ids are duplicate-free, filtering on a member's id yields
exactly that member. -/
theorem filter_id_eq_singleton (users : List UserRec) (u : UserRec)
    (hnd : (users.map (fun x => x.id)).Nodup) (hu : u ∈ users) :
    users.filter (fun x => x.id == u.id) = [u] := by
  induction users with
  | nil => cases hu
  | cons a as ih =>
    rw [List.map_cons] at hnd
    obtain ⟨ha, hnd2⟩ := List.nodup_cons.mp hnd
    rcases List.mem_cons.mp hu with heq | hu2
    · subst heq
      simp only [List.filter_cons, beq_self_eq_true, if_true]
      have hnil : as.filter (fun x => x.id == u.id) = [] := by
        refine List.filter_eq_nil_iff.mpr ?_
        intro y hy hyc
        have hyu : y.id = u.id := by simpa using hyc
        exact ha (hyu ▸ List.mem_map.mpr ⟨y, hy, rfl⟩)
      rw [hnil]
    · have hne : (a.id == u.id) = false := by
        refine beq_eq_false_iff_ne.mpr ?_
        intro hequ
        exact ha (hequ ▸ List.mem_map.mpr ⟨u, hu2, rfl⟩)
      simp only [List.filter_cons, hne, Bool.false_eq_true, if_false]
      exact ih hnd2 hu2

/-- Mapping a pointwise role- and wallet-preserving function preserves the
role/wallet projection of the store. -/
theorem map_role_wallet_of_pointwise (users : List UserRec) (f : UserRec → UserRec)
    (hf : ∀ x, (f x).role = x.role ∧ (f x).wallet_balance = x.wallet_balance) :
    (users.map f).map (fun x => (x.role, x.wallet_balance)) =
      users.map (fun x => (x.role, x.wallet_balance)) := by
  induction users with
  | nil => rfl
  | cons a as ih => simp [(hf a).1, (hf a).2, ih]

/-! Theorems. -/

/-- C1: the claim says `resetPassword` fails with the invalid-or-expired
error when the matched user's stored reset-token expiry is in the past. The
code performs no expiry comparison: at time 100, with the matched user's
`reset_password_expire = some 50` already past, the reset succeeds, the
password hash is updated, and the matched `reset_token` column is not even
cleared. -/
theorem resetPassword_accepts_expired_token :
    (resetPassword envA reqA "tok" "npw" "npw" 100 c1World).1 =
      ResponseHandler.success none "Password reset successful" ∧
    (resetPassword envA reqA "tok" "npw" "npw" 100 c1World).2.users.map
      (fun u => u.password) = ["Bnpw"] ∧
    (resetPassword envA reqA "tok" "npw" "npw" 100 c1World).2.users.map
      (fun u => u.reset_token) = [some "H"] ∧
    c1User.reset_password_expire = some 50 ∧ (50 : ℤ) < 100 := by
  decide

/-- C3 counterexample: a registration request from a blocked address whose
password confirmation does not match is rejected with the 400 validation
response, not with Forbidden — the confirmation check runs before the
blocked-address gate. -/
theorem register_blocked_address_not_forbidden :
    (register envA reqB "N" "e@x" "ph" "a" "b" "123456" "id1" "s1" "t1" "r1" 0 c3World).1 =
      ResponseHandler.badRequest "Passwords do not match" ∧
    isIpBlocked reqB.ip c3World.blockedIps = true ∧
    ResponseHandler.badRequest "Passwords do not match" ≠
      ResponseHandler.forbidden "Access denied from this IP address" := by
  decide

/-- C4: the first `updateWallet` snapshot's insufficient-balance guard
(`newBalance < 0 && newBalance == null`) can never fire, so subtracting 20
from a balance of 10 stores the negative balance -10 instead of failing; the
second snapshot rejects the same operation. -/
theorem updateWallet_stores_negative_balance :
    UserModel.updateWallet "u1" 20 "subtract" [c4User] =
      Except.ok [{ c4User with wallet_balance := -10 }] ∧
    ((-10 : ℚ) < 0) ∧
    UserModel.updateWallet_v2 "u1" 20 "subtract" [c4User] =
      Except.error "Insufficient wallet balance" := by
  refine ⟨?_, by norm_num, ?_⟩
  · unfold UserModel.updateWallet
    norm_num [singleRow, c4User, UserModel.jsNumEqNull, UserModel.writeWallet]
    decide
  · unfold UserModel.updateWallet_v2
    norm_num [singleRow, c4User]
    decide

/-- When every draw's uniqueness lookup hits a row, the agent-code recursion
returns nothing at every finite call depth. -/
theorem generateAgentCodeAux_none_of_all_hits (pfx : String) (users : List UserRec)
    (draws : ℕ → ℕ)
    (hall : ∀ k, (singleRow (users.filter
      (fun u => u.agent_code == some (agentCode pfx (draws k))))).isSome = true) :
    ∀ (f k : ℕ), generateAgentCodeAux pfx users draws k f = none := by
  intro f
  induction f with
  | zero => intro k; rw [generateAgentCodeAux.eq_1]
  | succ n ih =>
    intro k
    obtain ⟨v, hv⟩ := Option.isSome_iff_exists.mp (hall k)
    rw [generateAgentCodeAux.eq_2, hv]
    exact ih (k + 1)

/-- The draw 10000 collides with the store holding `c9User`. -/
theorem c9_collision_lookup :
    (singleRow ([c9User].filter
      (fun u => u.agent_code == some (agentCode "UB" 10000)))).isSome = true := by
  decide

/-- C9 counterexample: in a store owning the code "UB10000", an execution
whose every draw is 10000 never returns — no number of recursive calls
produces a result, refuting termination on every execution and every store
state. -/
theorem generateAgentCode_diverges_on_colliding_draws :
    ¬ ∃ (fuel : ℕ) (code : String),
      generateAgentCode "UB" [c9User] (fun _ => 10000) fuel = some code := by
  rintro ⟨fuel, code, h⟩
  rw [generateAgentCode,
    generateAgentCodeAux_none_of_all_hits "UB" [c9User] (fun _ => 10000)
      (fun _ => c9_collision_lookup) fuel 0] at h
  exact Option.noConfusion h

/-- C9 amended: `generateAgentCode` terminates on the executions in which
some draw yields a code absent from the store (in particular whenever a free
code is eventually drawn), and it then returns a code that was not present
at the time of its uniqueness check; executions whose every draw collides
never return. -/
theorem generateAgentCode_terminates_of_fresh_draw (pfx : String) (users : List UserRec)
    (draws : ℕ → ℕ)
    (hnd : (users.filterMap (fun u => u.agent_code)).Nodup)
    (hfresh : ∃ n, ∀ u ∈ users, u.agent_code ≠ some (agentCode pfx (draws n))) :
    ∃ (fuel : ℕ) (code : String), generateAgentCode pfx users draws fuel = some code ∧
      ∀ u ∈ users, u.agent_code ≠ some code := by
  obtain ⟨n, hn⟩ := hfresh
  have hfil : users.filter
      (fun u => u.agent_code == some (agentCode pfx (draws (0 + n)))) = [] := by
    rw [Nat.zero_add]
    refine List.filter_eq_nil_iff.mpr ?_
    intro u hu
    simp [hn u hu]
  obtain ⟨code, hrun, hsr⟩ := generateAgentCodeAux_finds pfx users draws n 0 hfil
  refine ⟨n + 1, code, hrun, ?_⟩
  intro u hu hcode
  rcases filter_agent_code_small users hnd code with h0 | ⟨a, ha⟩
  · have hmem : u ∈ users.filter (fun v => v.agent_code == some code) :=
      List.mem_filter.mpr ⟨hu, by simp [hcode]⟩
    rw [h0] at hmem
    exact absurd hmem (List.not_mem_nil u)
  · rw [ha] at hsr
    simp [singleRow] at hsr

/-- C9 witness: with one code stored and draws 10000, 10001, ..., the
recursion returns a code not present in the store. -/
theorem generateAgentCode_terminates_witness :
    ∃ (fuel : ℕ) (code : String),
      generateAgentCode "UB" [c9User] (fun i => 10000 + i) fuel = some code ∧
      ∀ u ∈ [c9User], u.agent_code ≠ some code :=
  generateAgentCode_terminates_of_fresh_draw "UB" [c9User] (fun i => 10000 + i)
    (by decide) ⟨1, by decide⟩

/-- C6: for a stored session that is the active match for its token but
whose expiry is in the past, `validateSession` reports invalid, flips the
session's active flag off as a side effect, and a second call on the
resulting store again reports invalid without further effect. -/
theorem validateSession_lazy_expiry (sessions : List Session) (s : Session)
    (tok : String) (now : ℤ)
    (hu : sessions.filter (fun x => x.session_token == tok && x.is_active) = [s])
    (hexp : s.expires_at < now) :
    (validateSession tok now sessions).1 = none ∧
    (∀ x ∈ (validateSession tok now sessions).2, x.id = s.id → x.is_active = false) ∧
    validateSession tok now (validateSession tok now sessions).2 =
      (none, (validateSession tok now sessions).2) := by
  have hv : validateSession tok now sessions = (none, invalidateSession s.id sessions) := by
    unfold validateSession
    rw [hu]
    simp [singleRow, hexp]
  refine ⟨by rw [hv], ?_, ?_⟩
  · rw [hv]
    intro x hx hxid
    obtain ⟨y, hy, hxy⟩ := List.mem_map.mp hx
    by_cases hyid : (y.id == s.id) = true
    · rw [if_pos hyid] at hxy
      rw [← hxy]
    · rw [if_neg (by simp [hyid])] at hxy
      rw [← hxy] at hxid
      exact absurd (by simp [hxid]) hyid
  · rw [hv]
    have hnil : (invalidateSession s.id sessions).filter
        (fun x => x.session_token == tok && x.is_active) = [] := by
      refine List.filter_eq_nil_iff.mpr ?_
      intro x hx hpx
      obtain ⟨y, hy, hxy⟩ := List.mem_map.mp hx
      by_cases hyid : (y.id == s.id) = true
      · rw [if_pos hyid] at hxy
        rw [← hxy] at hpx
        simp at hpx
      · rw [if_neg (by simp [hyid])] at hxy
        have hyf : y ∈ sessions.filter (fun x => x.session_token == tok && x.is_active) :=
          List.mem_filter.mpr ⟨hy, by rw [hxy]; exact hpx⟩
        rw [hu] at hyf
        have hys : y = s := by simpa using hyf
        rw [hys] at hyid
        exact hyid (by simp)
    unfold validateSession
    rw [hnil]
    rfl

/-- Session used by the C6 witness: active but expired at time 20. -/
def c6Session : Session := ⟨"s1", "u1", "t", "fp", "ua", "ip", none, 10, 0, true⟩

/-- C2: when a reset token matches a user, completing `resetPassword` flips
every session of that user to inactive, so any session token of that user
that validated successfully just before the reset is rejected by
`validateSession` afterwards. -/
theorem resetPassword_invalidates_sessions (env : Env) (req : Req) (token pw tok : String)
    (now : ℤ) (w : World) (u : UserRec) (s : Session)
    (hfind : UserModel.findByResetToken (env.sha256 token) w.users = some u)
    (hid : w.users.filter (fun x => x.id == u.id) = [u])
    (hval : (validateSession tok now w.sessions).1 = some s)
    (hsu : s.user_id = u.id) :
    (validateSession tok now (resetPassword env req token pw pw now w).2.sessions).1 = none := by
  have hupd := update_ok_of_unique env.bhash u.id
    { UpdateData.empty with
        password := some pw
        reset_password_token := some none
        reset_password_expire := some none } w.users u hid
  have hsess : (resetPassword env req token pw pw now w).2.sessions =
      invalidateAllUserSessions u.id w.sessions := by
    unfold resetPassword
    simp only [bne_self_eq_false, Bool.false_eq_true, if_false, hfind, hupd]
    rfl
  have hfs := validateSession_some_filter w.sessions s tok now hval
  have hnil := filter_invalidateAll_nil u.id tok w.sessions s hfs hsu
  rw [hsess]
  unfold validateSession
  rw [hnil]
  rfl

/-- User holding the reset-token hash for the C2 witness. -/
def c2User : UserRec :=
  ⟨"u1", "N", "e@x", "ph", "old", "user", true, 0, none, none, none,
    some "H", none, none, none, none, none⟩

/-- Active unexpired session of `c2User` for the C2 witness. -/
def c2Session : Session := ⟨"s1", "u1", "t", "fp", "ua", "ip", none, 1000, 0, true⟩

/-- Store containing `c2User` and `c2Session`. -/
def c2World : World := ⟨[c2User], [c2Session], [], [], []⟩

/-- C2 witness: a concrete session that validates before the reset is
rejected after it. -/
theorem resetPassword_invalidates_sessions_witness :
    (validateSession "t" 20 (resetPassword envA reqA "tok" "np" "np" 20 c2World).2.sessions).1 =
      none :=
  resetPassword_invalidates_sessions envA reqA "tok" "np" "t" 20 c2World c2User c2Session
    (by decide) (by decide) rfl rfl

/-- The empty store. -/
def emptyWorld : World := ⟨[], [], [], [], []⟩

/-- C8: `forgotPassword` answers with the same generic success response
whether or not a user with the email exists (two-run indistinguishability
over account existence), and never surfaces a 404. -/
theorem forgotPassword_no_enumeration (env : Env) (req : Req) (email rt : String)
    (now : ℤ) (w w2 : World)
    (hnd : (w.users.map (fun x => x.id)).Nodup)
    (hnd2 : (w2.users.map (fun x => x.id)).Nodup) :
    (forgotPassword env req email rt now w).1 =
      ResponseHandler.success none
        "If an account exists, password reset instructions have been sent" ∧
    (forgotPassword env req email rt now w).1 = (forgotPassword env req email rt now w2).1 ∧
    (forgotPassword env req email rt now w).1.code ≠ 404 := by
  have main : ∀ (v : World), (v.users.map (fun x => x.id)).Nodup →
      (forgotPassword env req email rt now v).1 =
      ResponseHandler.success none
        "If an account exists, password reset instructions have been sent" := by
    intro v hv
    unfold forgotPassword
    cases hf : UserModel.findByEmail email v.users with
    | none => simp only [hf]
    | some u =>
      have hu : u ∈ v.users := by
        have hfl := singleRow_eq_some hf
        have : u ∈ v.users.filter (fun x => x.email == email && x.deleted_at == none) := by
          rw [hfl]; exact List.mem_singleton.mpr rfl
        exact (List.mem_filter.mp this).1
      have hid := filter_id_eq_singleton v.users u hv hu
      have hupd := update_ok_of_unique env.bhash u.id
        { UpdateData.empty with
            reset_password_token := some (some (env.sha256 rt))
            reset_password_expire := some (some (now + 1800000)) } v.users u hid
      simp only [hf, hupd]
  refine ⟨main w hnd, ?_, ?_⟩
  · rw [main w hnd, main w2 hnd2]
  · rw [main w hnd]
    decide

/-- C10: `User.update` never writes the role or wallet-balance columns
(both snapshots), and a supplied nonempty password is stored as its bcrypt
hash, never in plaintext; an absent password leaves the stored hash
unchanged. -/
theorem update_preserves_role_and_wallet (bh : String → String) (id : String)
    (d : UpdateData) (users : List UserRec) :
    (∀ users2, UserModel.update bh id d users = Except.ok users2 →
      users2.map (fun x => (x.role, x.wallet_balance)) =
        users.map (fun x => (x.role, x.wallet_balance))) ∧
    (∀ users3, UserModel.update_v2 bh id d users = Except.ok users3 →
      users3.map (fun x => (x.role, x.wallet_balance)) =
        users.map (fun x => (x.role, x.wallet_balance))) ∧
    (∀ u, (applyUpdate bh d u).role = u.role ∧
      (applyUpdate bh d u).wallet_balance = u.wallet_balance) ∧
    (∀ u p, d.password = some p → p ≠ "" → (applyUpdate bh d u).password = bh p) ∧
    (∀ u, d.password = none → (applyUpdate bh d u).password = u.password) := by
  have hpt : ∀ (u : UserRec), (applyUpdate bh d u).role = u.role ∧
      (applyUpdate bh d u).wallet_balance = u.wallet_balance := fun _ => ⟨rfl, rfl⟩
  refine ⟨?_, ?_, hpt, ?_, ?_⟩
  · intro users2 h
    unfold UserModel.update at h
    cases hfl : users.filter (fun x => x.id == id) with
    | nil => rw [hfl] at h; exact absurd h (by simp)
    | cons a as =>
      cases as with
      | nil =>
        rw [hfl] at h
        have h2 : users2 = users.map (fun x => if x.id == id then applyUpdate bh d x else x) :=
          (Except.ok.inj h).symm
        rw [h2]
        refine map_role_wallet_of_pointwise users _ ?_
        intro x
        by_cases hx : (x.id == id) = true
        · rw [if_pos hx]; exact hpt x
        · rw [if_neg hx]; exact ⟨rfl, rfl⟩
      | cons b bs => rw [hfl] at h; exact absurd h (by simp)
  · intro users3 h
    unfold UserModel.update_v2 at h
    cases hfl : users.filter (fun x => x.id == id && x.deleted_at == none) with
    | nil => rw [hfl] at h; exact absurd h (by simp)
    | cons a as =>
      cases as with
      | nil =>
        rw [hfl] at h
        have h2 : users3 = users.map
            (fun x => if x.id == id && x.deleted_at == none then applyUpdate bh d x else x) :=
          (Except.ok.inj h).symm
        rw [h2]
        refine map_role_wallet_of_pointwise users _ ?_
        intro x
        by_cases hx : (x.id == id && x.deleted_at == none) = true
        · rw [if_pos hx]; exact hpt x
        · rw [if_neg hx]; exact ⟨rfl, rfl⟩
      | cons b bs => rw [hfl] at h; exact absurd h (by simp)
  · intro u p hp hpe
    unfold applyUpdate
    simp only [hp]
    rw [if_neg (by simp [hpe])]
  · intro u hp
    unfold applyUpdate
    simp only [hp]

/-- User of the C10 witness, role "user" and balance 3. -/
def c10User : UserRec :=
  ⟨"u1", "N", "e@x", "ph", "old", "user", true, 3, none, none, none,
    none, none, none, none, none, none⟩

/-- Update object of the C10 witness: tries to write role and wallet balance
alongside a password change. -/
def c10Data : UpdateData :=
  { UpdateData.empty with
      password := some "pw"
      role := some "admin"
      wallet_balance := some 5
      name := some "NN" }

/-- C10 witness: on a concrete store, the role/wallet projection survives the
update and the stored password is the bcrypt image of the supplied one. -/
theorem update_preserves_role_and_wallet_witness :
    ([c10User].map (fun x => if x.id == "u1" then applyUpdate (fun s => "B" ++ s) c10Data x
        else x)).map (fun x => (x.role, x.wallet_balance)) =
      [c10User].map (fun x => (x.role, x.wallet_balance)) ∧
    (applyUpdate (fun s => "B" ++ s) c10Data c10User).password = "B" ++ "pw" :=
  ⟨(update_preserves_role_and_wallet (fun s => "B" ++ s) "u1" c10Data [c10User]).1 _
      (by decide),
    (update_preserves_role_and_wallet (fun s => "B" ++ s) "u1" c10Data [c10User]).2.2.2.1
      c10User "pw" rfl (by decide)⟩

/-- C3 amended: five failed attempts within the trailing window from a not
yet blocked address insert a block row for it; thereafter every login
request from a blocked address, and every registration request from it that
passes the password-confirmation validation, is rejected with Forbidden, for
every user store and all credentials, with no store mutation — so before any
user lookup or password comparison. -/
theorem bruteforce_block_and_gate (env : Env) (req : Req) (window now : ℤ) :
    (∀ (w : World) (uid : Option String),
      0 ≤ window →
      4 ≤ getRecentFailedAttempts req.ip window now w.activities →
      req.ip ∉ w.blockedIps.map (fun b => b.ip) →
      isIpBlocked req.ip (handleFailedLogin env req uid window now w).blockedIps = true) ∧
    (∀ (w : World) (email pw nsid nst nrt : String),
      isIpBlocked req.ip w.blockedIps = true →
      login env req email pw nsid nst nrt window now w =
        (ResponseHandler.forbidden "Access denied from this IP address", w)) ∧
    (∀ (w : World) (nm email phone pw code nuid nsid nst nrt : String),
      isIpBlocked req.ip w.blockedIps = true →
      register env req nm email phone pw pw code nuid nsid nst nrt now w =
        (ResponseHandler.forbidden "Access denied from this IP address", w)) := by
  refine ⟨?_, ?_, ?_⟩
  · intro w uid hw h4 hnb
    have hle : now - window ≤ now := by omega
    have hcount : getRecentFailedAttempts req.ip window now
        (logActivity uid none "LOGIN_FAILED" env req "FAILED" now w).activities =
        getRecentFailedAttempts req.ip window now w.activities + 1 := by
      unfold logActivity getRecentFailedAttempts
      rw [List.filter_append, List.length_append]
      have h1 : now ≤ now + window := by omega
      simp [hle, h1]
    have hge : 5 ≤ getRecentFailedAttempts req.ip window now
        (logActivity uid none "LOGIN_FAILED" env req "FAILED" now w).activities := by
      rw [hcount]; omega
    unfold handleFailedLogin
    rw [if_pos hge]
    unfold blockIp isIpBlocked
    have hfo : (logActivity uid none "LOGIN_FAILED" env req "FAILED" now w).blockedIps.filter
        (fun b => b.ip == req.ip) = [] := by
      refine List.filter_eq_nil_iff.mpr ?_
      intro b hb hbe
      have hbi : b.ip = req.ip := by simpa using hbe
      exact hnb (hbi ▸ List.mem_map.mpr ⟨b, hb, rfl⟩)
    rw [List.filter_append, hfo]
    simp [singleRow]
  · intro w email pw nsid nst nrt h
    unfold login
    rw [h]
    rfl
  · intro w nm email phone pw code nuid nsid nst nrt h
    unfold register
    rw [bne_self_eq_false, h]
    rfl

/-- Failed-login activity row from the address of `reqA` at time 98. -/
def c3Activity : Activity := ⟨none, none, "LOGIN_FAILED", "9.9.9.9", "fp", "FAILED", 98⟩

/-- Store holding four recent failed attempts from the address of `reqA`. -/
def c3WorldB : World := ⟨[], [], [], List.replicate 4 c3Activity, []⟩

/-- C3 witness: the fifth failure from a concrete address blocks it, and a
blocked address is turned away from login and registration. -/
theorem bruteforce_block_and_gate_witness :
    isIpBlocked reqA.ip (handleFailedLogin envA reqA none 10 100 c3WorldB).blockedIps = true ∧
    login envA reqB "e@x" "pw" "s1" "t1" "r1" 10 100 c3World =
      (ResponseHandler.forbidden "Access denied from this IP address", c3World) ∧
    register envA reqB "N" "e@x" "ph" "pw" "pw" "c" "id1" "s1" "t1" "r1" 100 c3World =
      (ResponseHandler.forbidden "Access denied from this IP address", c3World) :=
  ⟨(bruteforce_block_and_gate envA reqA 10 100).1 c3WorldB none (by norm_num)
      (by decide) (by decide),
    (bruteforce_block_and_gate envA reqB 10 100).2.1 c3World "e@x" "pw" "s1" "t1" "r1"
      (by decide),
    (bruteforce_block_and_gate envA reqB 10 100).2.2 c3World "N" "e@x" "ph" "pw" "c"
      "id1" "s1" "t1" "r1" (by decide)⟩

/-- Haversine distance from a point to itself is zero. -/
theorem calculateDistance_self (lat lon : ℝ) : calculateDistance lat lon lat lon = 0 := by
  unfold calculateDistance atan2 toRad
  simp [sub_self, zero_mul, zero_div, Real.sin_zero, mul_zero, add_zero,
    Real.sqrt_zero, sub_zero, Real.sqrt_one, zero_lt_one, Real.arctan_zero]

/-- C5: the location predicate is false on an empty previous-location set,
false when some prior point is within 1000 km (haversine, radius 6371) of
the new point, true otherwise; and the login anomaly check evaluates exactly
this predicate, disjoined with the unknown-device test. -/
theorem isSuspiciousLocation_spec (nl : Location) (opt : Option Location)
    (prevs : List Location) (env : Env) (uid : String) (req : Req)
    (devices : List Device) (sessions : List Session) :
    isSuspiciousLocation opt [] = Except.ok false ∧
    ((∃ p ∈ prevs, calculateDistance nl.lat nl.lon p.lat p.lon < 1000) →
      isSuspiciousLocation (some nl) prevs = Except.ok false) ∧
    (prevs ≠ [] → (∀ p ∈ prevs, ¬ calculateDistance nl.lat nl.lon p.lat p.lon < 1000) →
      isSuspiciousLocation (some nl) prevs = Except.ok true) ∧
    checkSuspiciousActivity env uid req devices sessions =
      (isSuspiciousLocation (env.geo req.ip) (previousLocationsOf uid sessions)).map
        (fun suspLoc => (!(getKnownDevices uid devices).any
          (fun d => d.device_fingerprint == deviceFingerprint env req)) || suspLoc) := by
  refine ⟨rfl, ?_, ?_, ?_⟩
  · rintro ⟨p, hp, hd⟩
    unfold isSuspiciousLocation
    rw [if_neg (by simp [List.isEmpty_iff, List.ne_nil_of_mem hp])]
    have hany : prevs.any (fun loc =>
        if calculateDistance nl.lat nl.lon loc.lat loc.lon < 1000 then true else false) = true :=
      List.any_eq_true.mpr ⟨p, hp, by rw [if_pos hd]⟩
    show Except.ok (!prevs.any (fun loc =>
      if calculateDistance nl.lat nl.lon loc.lat loc.lon < 1000 then true else false)) =
      Except.ok false
    rw [hany]
    rfl
  · intro hne hall
    unfold isSuspiciousLocation
    rw [if_neg (by simp [List.isEmpty_iff, hne])]
    have hany : prevs.any (fun loc =>
        if calculateDistance nl.lat nl.lon loc.lat loc.lon < 1000 then true else false) = false := by
      refine List.any_eq_false.mpr ?_
      intro p hp
      rw [if_neg (hall p hp)]
      simp
    show Except.ok (!prevs.any (fun loc =>
      if calculateDistance nl.lat nl.lon loc.lat loc.lon < 1000 then true else false)) =
      Except.ok true
    rw [hany]
    rfl
  · unfold checkSuspiciousActivity
    cases h : isSuspiciousLocation (env.geo req.ip) (previousLocationsOf uid sessions) with
    | error e => simp [h, Except.map]
    | ok b => simp [h, Except.map]

/-- Location of the prior session in the C5 and C7 witnesses. -/
def c5Loc : Location := ⟨5.6, -0.2⟩

/-- C5 witness: a login from the same coordinates as the single prior
location is not suspicious. -/
theorem isSuspiciousLocation_spec_witness :
    isSuspiciousLocation (some c5Loc) [c5Loc] = Except.ok false :=
  (isSuspiciousLocation_spec c5Loc none [c5Loc] envA "u1" reqA [] []).2.1
    ⟨c5Loc, List.mem_singleton.mpr rfl, by rw [calculateDistance_self]; norm_num⟩

/-- Verified user whose stored hash matches the presented password under
`envA`. -/
def c7User : UserRec :=
  ⟨"u1", "N", "e@x", "ph", "Bpw", "user", true, 0, none, none, none,
    none, none, none, none, none, none⟩

/-- Prior session of `c7User` carrying a recorded location. -/
def c7Session : Session := ⟨"s0", "u1", "t0", "fp", "ua", "ip", some c5Loc, 99999, 0, true⟩

/-- Store for the C7 evaluation: one verified user with one located prior
session. -/
def c7World : World := ⟨[c7User], [c7Session], [], [], []⟩

/-- C7: with correct credentials and a verified user, when the geo lookup
returns no location and the user has a previously recorded location, the
login flow does not complete: the session row is still inserted, but the
suspicious-activity check throws on destructuring the null location and the
controller answers 500 instead of success. -/
theorem login_errors_on_unknown_location :
    envA.geo reqA.ip = none ∧
    (login envA reqA "e@x" "pw" "sN" "tN" "rN" 10 100 c7World).1.code = 500 ∧
    (login envA reqA "e@x" "pw" "sN" "tN" "rN" 10 100 c7World).1.status = "error" ∧
    (login envA reqA "e@x" "pw" "sN" "tN" "rN" 10 100 c7World).2.sessions.length = 2 := by
  exact ⟨rfl, rfl, rfl, rfl⟩

/-- C8 witness: the responses for a store holding a user with the email and
for the empty store are both the generic success. -/
theorem forgotPassword_no_enumeration_witness :
    (forgotPassword envA reqA "e@x" "rt" 0 c1World).1 =
      ResponseHandler.success none
        "If an account exists, password reset instructions have been sent" ∧
    (forgotPassword envA reqA "e@x" "rt" 0 c1World).1 =
      (forgotPassword envA reqA "e@x" "rt" 0 emptyWorld).1 ∧
    (forgotPassword envA reqA "e@x" "rt" 0 c1World).1.code ≠ 404 :=
  forgotPassword_no_enumeration envA reqA "e@x" "rt" 0 c1World emptyWorld
    (by decide) (by decide)

/-- C6 witness: the lazy-expiry behaviour evaluated on a concrete expired
session. -/
theorem validateSession_lazy_expiry_witness :
    (validateSession "t" 20 [c6Session]).1 = none ∧
    (∀ x ∈ (validateSession "t" 20 [c6Session]).2, x.id = c6Session.id → x.is_active = false) ∧
    validateSession "t" 20 (validateSession "t" 20 [c6Session]).2 =
      (none, (validateSession "t" 20 [c6Session]).2) :=
  validateSession_lazy_expiry [c6Session] c6Session "t" 20 rfl (by decide)

end UltimateBlog
